import Mathlib

/-!
Verification of the badsecrets CLI (`badsecrets/examples/cli.py`) against its
natural-language specification.

The repository excerpt contains only the CLI glue; the engine it calls
(`check_all_modules`, `carve_all_modules`, `hashcat_all_modules` from
`badsecrets.base`) is not part of the excerpt.  Definitions of the engine are
therefore modelled from the specification (each such definition's doc comment
starts with `Modelled from the spec:`); the CLI control flow itself
(`validate_file`, `main`) is translated directly from `cli.py`.

Printing is modelled as the ordered list of messages emitted; a Python function
that may raise is modelled as returning `Except`.
-/

set_option autoImplicit false

namespace Badsecrets

/-- Modelled from the spec: a module's product descriptor, carrying the product
name and the secret category (`description` dict with keys `product` and
`secret`, as read by `BaseReport.print_report`). -/
structure ProductDescriptor where
  product : String
  secret : String
deriving DecidableEq

/-- Modelled from the spec: a hashcat candidate record
`{detecting_module, hashcat_description, hashcat_command}`, consumed verbatim
by `print_hashcat_results`. -/
structure HashcatCandidate where
  detecting_module : String
  hashcat_description : String
  hashcat_command : String
deriving DecidableEq

/-- Modelled from the spec: `DetectionResult` is a discriminated union with the
two variants `SecretFound` and `ProductIdentified`.  The fields are the dict
keys the CLI reads (`detecting_module`, `description`, `product`, `location`,
`secret`, `details`, `hashcat`). -/
inductive DetectionResult where
  | secretFound (detecting_module : String) (description : ProductDescriptor)
      (product : String) (location : String) (secret : String) (details : String)
  | productIdentified (detecting_module : String) (description : ProductDescriptor)
      (product : String) (location : String)
      (hashcat : Option (List HashcatCandidate))
deriving DecidableEq

namespace DetectionResult

/-- The value of the `type` key of the result record, as compared by the CLI
(`r["type"] == "SecretFound"`). -/
def rtype : DetectionResult → String
  | .secretFound .. => "SecretFound"
  | .productIdentified .. => "ProductIdentified"

def detecting_module : DetectionResult → String
  | .secretFound dm _ _ _ _ _ => dm
  | .productIdentified dm _ _ _ _ => dm

def description : DetectionResult → ProductDescriptor
  | .secretFound _ d _ _ _ _ => d
  | .productIdentified _ d _ _ _ => d

def product : DetectionResult → String
  | .secretFound _ _ p _ _ _ => p
  | .productIdentified _ _ p _ _ => p

def location : DetectionResult → String
  | .secretFound _ _ _ l _ _ => l
  | .productIdentified _ _ _ l _ => l

def secret : DetectionResult → String
  | .secretFound _ _ _ _ s _ => s
  | .productIdentified .. => ""

def details : DetectionResult → String
  | .secretFound _ _ _ _ _ d => d
  | .productIdentified .. => ""

def hashcat : DetectionResult → Option (List HashcatCandidate)
  | .secretFound .. => none
  | .productIdentified _ _ _ _ hc => hc

def isSecretFound : DetectionResult → Bool
  | .secretFound .. => true
  | .productIdentified .. => false

def isProductIdentified : DetectionResult → Bool
  | .secretFound .. => false
  | .productIdentified .. => true

/-- `r["hashcat"] = hashcat_candidates` on a `ProductIdentified` record (the
only variant the CLI performs this assignment on). -/
def setHashcat (r : DetectionResult) (hc : List HashcatCandidate) : DetectionResult :=
  match r with
  | .productIdentified dm d p l _ => .productIdentified dm d p l (some hc)
  | x => x

end DetectionResult

/-- The minimal HTTP-response surface the carver consumes: headers, cookies and
body (spec section 6). -/
structure Response where
  headers : List (String × String)
  cookies : List (String × String)
  body : String

/-- Modelled from the spec: a detection module, polymorphic over the shared
capability contract (`check`, `carve`, hashcat template) with an identity and
a product descriptor. -/
structure Module where
  name : String
  description : ProductDescriptor
  check : List String → List String → Option DetectionResult
  carve : Response → List DetectionResult
  hashcat : Option (String × String)

/-- Modelled from the spec: the default secret dictionary shipped with the
library, loaded once per invocation. -/
def default_secrets : List String :=
  ["secret", "password", "changeme", "1234567890"]

/-- Split a string at every occurrence of the separator character (the
behaviour of `str.split(sep)`), by structural recursion so that concrete
instances evaluate. -/
def splitOnChar (sep : Char) (s : String) : List String :=
  (s.toList.foldr
    (fun c acc => if c = sep then [] :: acc else (c :: acc.headD []) :: acc.tail)
    [[]]).map (fun cs => String.mk cs)

/-- Modelled from the spec: parse the contents of a custom-secret file into
additional dictionary entries, one entry per non-empty line; a file yielding no
entries is non-conforming and is rejected with a descriptive error. -/
def parse_secrets (content : String) : Except String (List String) :=
  let entries := (splitOnChar '\n' content).filter (fun l => l ≠ "")
  if entries.isEmpty then
    .error "custom secrets file contains no entries"
  else
    .ok entries

/-- Modelled from the spec: iterate the given modules in registration order,
attempting each module's `check` on the candidate values, and stop at the
first module that matches. -/
def run_modules (modules : List Module) (vals dict : List String) :
    Option DetectionResult :=
  match modules with
  | [] => none
  | m :: rest =>
    match m.check vals dict with
    | some r => some r
    | none => run_modules rest vals dict

/-- Modelled from the spec: `check_all_modules`.  If a custom resource is
given, its contents are parsed into additional dictionary entries (merged
after the defaults) before any module runs; a parse failure is a hard error
surfaced to the caller.  Otherwise the modules are consulted in registration
order with first-match-wins semantics. -/
def check_all_modules (modules : List Module) (vals : List String)
    (custom_resource : Option String) : Except String (Option DetectionResult) :=
  match custom_resource with
  | none => .ok (run_modules modules vals default_secrets)
  | some content =>
    match parse_secrets content with
    | .error e => .error e
    | .ok extra => .ok (run_modules modules vals (default_secrets ++ extra))

/-- Modelled from the spec: `carve_all_modules` scans the response with every
module's `carve` operation and accumulates all results in registration order,
returning the empty sequence (never `none`) when nothing is found. -/
def carve_all_modules (modules : List Module) (res : Response) :
    List DetectionResult :=
  (modules.map (fun m => m.carve res)).flatten

/-- Lower-case a string character by character (structural recursion, so that
concrete instances evaluate). -/
def strLower (s : String) : String :=
  String.mk (s.toList.map Char.toLower)

/-- Modelled from the spec: `hashcat_all_modules` looks up the modules whose
product descriptor matches the identifier (case-insensitive) and emits each
one's precomputed hashcat command template.  Pure and total: absence of a
mapping yields the empty sequence. -/
def hashcat_all_modules (modules : List Module) (product_identifier : String) :
    List HashcatCandidate :=
  modules.filterMap (fun m =>
    match m.hashcat with
    | none => none
    | some dc =>
      if strLower m.description.product = strLower product_identifier then
        some ⟨m.name, dc.1, dc.2⟩
      else none)

/-! ## A representative per-module detector (spec section 4.5) -/

/-- Modelled from the spec: whether a string is syntactically valid
url-safe-base64 material (alphanumerics, `-`, `_`, trailing `=` padding kept
simple as an allowed character). -/
def isB64url (s : String) : Bool :=
  !s.isEmpty && s.toList.all (fun c => c.isAlphanum || c = '-' || c = '_' || c = '=')

/-- Modelled from the spec: a stand-in keyed signature over the token data, so
that signature verification against a dictionary entry is executable. -/
def toySig (secretKey dat : String) : String :=
  toString ((secretKey ++ "." ++ dat).toList.foldl
    (fun a c => (a * 31 + c.toNat) % 1000000007) 7)

/-- Modelled from the spec: the representative "signed session cookie"
detector.  It expects exactly one candidate value of the shape
`header.payload.signature`; a wrong segment count or malformed base64 segment
is non-fatal and yields `none` (`Unmatched`), and otherwise each dictionary
entry is tried in turn, the first one that verifies the signature producing a
`SecretFound` result. -/
def sessionCookieCheck (vals dict : List String) : Option DetectionResult :=
  match vals with
  | [token] =>
    match splitOnChar '.' token with
    | [hd, payload, sig] =>
      if isB64url hd && isB64url payload && isB64url sig then
        match dict.find? (fun s => toySig s (hd ++ "." ++ payload) == sig) with
        | some s =>
          some (.secretFound "SessionCookie"
            ⟨"Session Cookie", "HMAC key"⟩ "Session Cookie" "manual" s
            ("payload: " ++ payload))
        | none => none
      else none
    | _ => none
  | _ => none

/-- Modelled from the spec: the representative detector packaged as a
registered module (its carver scans every cookie of the response with the
default dictionary). -/
def sessionCookieModule : Module where
  name := "SessionCookie"
  description := ⟨"Session Cookie", "HMAC key"⟩
  check := sessionCookieCheck
  carve := fun res =>
    res.cookies.filterMap (fun nv =>
      match sessionCookieCheck [nv.2] default_secrets with
      | some (.secretFound dm d p _ s det) =>
        some (.secretFound dm d p ("Cookie: " ++ nv.1) s det)
      | some r => some r
      | none => none)
  hashcat := some ("HMAC-SHA256 session cookie", "hashcat -m 1450 <sig>:<data> <wordlist>")

/-! ## The CLI layer, translated from `badsecrets/examples/cli.py` -/

/-- The observable file-system facts `validate_file` queries about its
argument: `os.path.exists`, `os.path.isfile`, `os.path.getsize`. -/
structure FileStat where
  pathExists : Bool
  isFile : Bool
  size : Nat
deriving DecidableEq

/-- `validate_file` from `cli.py`: raises `argparse.ArgumentTypeError`
(modelled as `Except.error`) unless the path exists, is a regular file and is
at most `100 * 1024` bytes; on success it returns the path unchanged. -/
def validate_file (file : String) (st : FileStat) : Except String String :=
  if !st.pathExists then
    .error ("The file " ++ file ++ " does not exist!")
  else if !st.isFile then
    .error (file ++ " is not a valid file!")
  else if st.size > 100 * 1024 then
    .error ("The file " ++ file ++ " exceeds the maximum limit of 100KB!")
  else
    .ok file

/-- The exception classes `requests.get` may raise, as documented by the
`requests` library: `ConnectTimeout` subclasses `ConnectionError`; the other
constructors subclass `RequestException` but not `ConnectionError`. -/
inductive ReqException where
  | connectionError
  | connectTimeout
  | readTimeout
  | tooManyRedirects
  | chunkedEncodingError
deriving DecidableEq

/-- Whether the exception is caught by the handler at `cli.py` line 141:
`except (requests.exceptions.ConnectionError, requests.exceptions.ConnectTimeout)`. -/
def caught : ReqException → Bool
  | .connectionError => true
  | .connectTimeout => true
  | .readTimeout => false
  | .tooManyRedirects => false
  | .chunkedEncodingError => false

/-- Failure modes of a `main` invocation: an `argparse` usage error, an
uncaught `requests` exception, or an uncaught engine error while loading the
custom-secret file. -/
inductive CliError where
  | usage (msg : String)
  | req (e : ReqException)
  | engine (msg : String)
deriving DecidableEq

/-- The parsed command-line arguments of `cli.py` (`--proxy` and
`--user-agent` only shape the external fetch, which `mainRun` receives as a
parameter). -/
structure Args where
  url : Option String
  no_hashcat : Bool
  custom_secrets : Option String
  product : List String
deriving DecidableEq

def banner : String := "badsecrets - command line interface\n"

def noSecretsMsg : String := "No secrets found :("

/-- The lines printed by `BaseReport.print_report`. -/
def baseReportLines (report_message : String) (r : DetectionResult) : List String :=
  ["***********************",
   report_message,
   "Detecting Module: " ++ r.detecting_module ++ "\n",
   "Product Type: " ++ r.description.product,
   "Product: " ++ r.product,
   "Secret Type: " ++ r.description.secret,
   "Location: " ++ r.location]

/-- The lines printed by `print_hashcat_results`. -/
def printHashcatLines (hcs : List HashcatCandidate) : List String :=
  "\nPotential matching hashcat commands:\n" ::
    hcs.map (fun hc =>
      "Module: [" ++ hc.detecting_module ++ "] " ++ hc.hashcat_description ++
        " Command: [" ++ hc.hashcat_command ++ "]")

/-- The lines printed by `ReportSecret.report`. -/
def reportSecretLines (r : DetectionResult) : List String :=
  baseReportLines "Known Secret Found!\n" r ++
    ["Secret: " ++ r.secret, "Details: " ++ r.details]

/-- The lines printed by `ReportIdentify.report`. -/
def reportIdentifyLines (r : DetectionResult) : List String :=
  baseReportLines "Cryptographic Product Identified (no vulnerability)\n" r ++
    (match r.hashcat with
     | some hcs => printHashcatLines hcs
     | none => [])

/-- Which report class the CLI instantiates for a carve result
(`if r["type"] == "SecretFound"` at `cli.py` line 148). -/
inductive ReportKind where
  | secret
  | identify
deriving DecidableEq

def classifyResult (r : DetectionResult) : ReportKind :=
  if r.rtype = "SecretFound" then .secret else .identify

/-- The body of the `for r in r_list` loop of URL mode (`cli.py` lines
147-156): a `SecretFound` record is reported by `ReportSecret`; otherwise,
unless `--no-hashcat` was given, a non-empty advisor result is attached to the
record before `ReportIdentify` prints it. -/
def processCarveResult (args : Args) (modules : List Module)
    (r : DetectionResult) : List String :=
  if r.rtype = "SecretFound" then
    reportSecretLines r
  else
    let r1 :=
      if !args.no_hashcat then
        let hcs := hashcat_all_modules modules r.product
        if !hcs.isEmpty then r.setHashcat hcs else r
      else r
    reportIdentifyLines r1

/-- `main` from `cli.py`, as a function of the parsed arguments, the module
registry and the outcome of the one external HTTP fetch.  The result is the
ordered list of printed messages, or the error on which `main` aborts
abnormally (`parser.error`, an uncaught fetch exception, or an engine error
raised out of `check_all_modules`). -/
def mainRun (args : Args) (modules : List Module)
    (fetch : Except ReqException Response) : Except CliError (List String) :=
  if args.url.isNone && args.product.isEmpty then
    .error (.usage "Either supply the product as a positional argument, or use --url mode with a valid URL")
  else if args.url.isSome && !args.product.isEmpty then
    .error (.usage "In --url mode, no positional arguments should be used")
  else
    match args.url with
    | some u =>
      match fetch with
      | .error e =>
        if caught e then
          .ok [banner, "Error connecting to URL: [" ++ u ++ "]"]
        else
          .error (.req e)
      | .ok res =>
        let r_list := carve_all_modules modules res
        if r_list.isEmpty then
          .ok [banner, noSecretsMsg]
        else
          .ok (banner :: (r_list.map (processCarveResult args modules)).flatten)
    | none =>
      match check_all_modules modules args.product args.custom_secrets with
      | .error e => .error (.engine e)
      | .ok (some x) => .ok (banner :: reportSecretLines x)
      | .ok none =>
        if args.no_hashcat then
          .ok [banner, noSecretsMsg]
        else
          let hcs := hashcat_all_modules modules (args.product.headD "")
          if hcs.isEmpty then
            .ok [banner, noSecretsMsg]
          else
            .ok ([banner, noSecretsMsg] ++ printHashcatLines hcs)

/-! ## Concrete values used by witnesses and counterexamples -/

/-- A response with no headers, cookies or body. -/
def emptyResponse : Response := ⟨[], [], ""⟩

/-- A sample detection result of the `ProductIdentified` variant. -/
def rIdent : DetectionResult :=
  .productIdentified "SessionCookie" ⟨"Session Cookie", "HMAC key"⟩ "Session Cookie" "manual" none

/-- A module whose check never matches. -/
def mMiss : Module := ⟨"miss", ⟨"P", "S"⟩, fun _ _ => none, fun _ => [], none⟩

/-- A module whose check always reports `rIdent`. -/
def mHit : Module := ⟨"hit", ⟨"P", "S"⟩, fun _ _ => some rIdent, fun _ => [], none⟩

/-- Arguments of a plain URL-mode invocation. -/
def argsUrlOnly : Args := ⟨some "http://example.com", false, none, []⟩

/-- Arguments of a plain product-mode invocation. -/
def argsProductOnly : Args := ⟨none, false, none, ["Session Cookie"]⟩

/-! ## Helper lemmas -/

theorem run_modules_first_match (ms₁ : List Module) (m : Module) (ms₂ : List Module)
    (vals dict : List String) (r : DetectionResult)
    (h₁ : ∀ m' ∈ ms₁, m'.check vals dict = none) (h₂ : m.check vals dict = some r) :
    run_modules (ms₁ ++ m :: ms₂) vals dict = some r := by
  induction ms₁ with
  | nil => simp [run_modules, h₂]
  | cons a as ih =>
    have ha : a.check vals dict = none := h₁ a (by simp)
    simpa [run_modules, ha] using ih (fun m' hm' => h₁ m' (by simp [hm']))

theorem mainRun_product_none (args : Args) (ms : List Module)
    (fetch : Except ReqException Response)
    (hu : args.url = none) (hp : args.product ≠ [])
    (hc : check_all_modules ms args.product args.custom_secrets = Except.ok none) :
    mainRun args ms fetch =
      (if args.no_hashcat then Except.ok [banner, noSecretsMsg]
       else
         let hcs := hashcat_all_modules ms (args.product.headD "")
         if hcs.isEmpty then Except.ok [banner, noSecretsMsg]
         else Except.ok ([banner, noSecretsMsg] ++ printHashcatLines hcs)) := by
  obtain ⟨au, nh, cs, prod⟩ := args
  simp only at hu hp hc
  subst hu
  cases prod with
  | nil => exact absurd rfl hp
  | cons p ps =>
    simp only [mainRun, Option.isNone_none, List.isEmpty_cons, Bool.and_false,
      Option.isSome_none, Bool.false_and, Bool.false_eq_true, if_false, hc]

/-! ## Claim theorems -/

/-- C4: `validate_file` accepts a path iff it exists, is a regular file and is
at most `100 * 1024` bytes, returning the path unchanged; otherwise it raises
`argparse.ArgumentTypeError` (modelled as `Except.error`). -/
theorem validate_file_accepts_iff (file : String) (st : FileStat) :
    (validate_file file st = Except.ok file ↔
      (st.pathExists = true ∧ st.isFile = true ∧ st.size ≤ 100 * 1024)) ∧
    (∀ r, validate_file file st = Except.ok r → r = file) := by
  obtain ⟨e, f, n⟩ := st
  constructor
  · by_cases hn : n > 100 * 1024 <;>
      cases e <;> cases f <;> simp [validate_file, hn] <;> omega
  · intro r h
    by_cases hn : n > 100 * 1024 <;>
      cases e <;> cases f <;> simp [validate_file, hn] at h <;> exact h.symm

/-- Witness for C4: a 100-KiB regular file is accepted and returned
unchanged. -/
theorem validate_file_accepts_iff_witness :
    validate_file "words.txt" ⟨true, true, 100 * 1024⟩ = Except.ok "words.txt" :=
  (validate_file_accepts_iff "words.txt" ⟨true, true, 100 * 1024⟩).1.mpr
    ⟨rfl, rfl, le_refl _⟩

/-- C8: detection is deterministic — a module's `check`, and
`check_all_modules`, give the same result on two runs with identical inputs
and an identical secret dictionary. -/
theorem detection_deterministic (modules : List Module) (m : Module)
    (vals vals' dict dict' : List String) (cr cr' : Option String)
    (hv : vals = vals') (hd : dict = dict') (hc : cr = cr') :
    m.check vals dict = m.check vals' dict' ∧
    check_all_modules modules vals cr = check_all_modules modules vals' cr' := by
  subst hv; subst hd; subst hc; exact ⟨rfl, rfl⟩

/-- Witness for C8: two identical runs of the representative module and of
`check_all_modules` agree. -/
theorem detection_deterministic_witness :
    sessionCookieModule.check ["a.b.c"] default_secrets =
      sessionCookieModule.check ["a.b.c"] default_secrets ∧
    check_all_modules [sessionCookieModule] ["a.b.c"] none =
      check_all_modules [sessionCookieModule] ["a.b.c"] none :=
  detection_deterministic [sessionCookieModule] sessionCookieModule
    ["a.b.c"] ["a.b.c"] default_secrets default_secrets none none rfl rfl rfl

/-- C3: a parse failure of the custom-secret file is a hard error surfaced to
the caller before any detection runs: `check_all_modules` returns the parse
error itself, its outcome is independent of the modules and candidate values
(no module is consulted, no entry is applied), and the error propagates out of
`main`'s product mode. -/
theorem custom_resource_parse_failure_hard_error (ms ms' : List Module)
    (vals vals' : List String) (content e : String) (args : Args)
    (fetch : Except ReqException Response)
    (hp : parse_secrets content = Except.error e) :
    check_all_modules ms vals (some content) = Except.error e ∧
    check_all_modules ms vals (some content) =
      check_all_modules ms' vals' (some content) ∧
    (args.url = none → args.product ≠ [] → args.custom_secrets = some content →
      mainRun args ms fetch = Except.error (.engine e)) := by
  refine ⟨by simp [check_all_modules, hp], by simp [check_all_modules, hp], ?_⟩
  intro hu hpr hcs
  obtain ⟨au, nh, cs, prod⟩ := args
  simp only at hu hpr hcs
  subst hu; subst hcs
  cases prod with
  | nil => exact absurd rfl hpr
  | cons p ps =>
    simp [mainRun, check_all_modules, hp]

/-- Witness for C3: an empty custom-secret file parses to no entries and
`check_all_modules` surfaces that error unchanged. -/
theorem custom_resource_parse_failure_hard_error_witness :
    check_all_modules [sessionCookieModule] ["tok"] (some "") =
      Except.error "custom secrets file contains no entries" :=
  (custom_resource_parse_failure_hard_error [sessionCookieModule] [] ["tok"] []
    "" "custom secrets file contains no entries"
    ⟨none, false, some "", ["tok"]⟩ (.ok emptyResponse) rfl).1

/-- C10: in URL mode the `--custom-secrets` argument has no effect on the
outcome: `main`'s printed output (and failure mode) is identical whatever
value the argument takes, because only the non-URL branch reads it. -/
theorem url_mode_ignores_custom_secrets (args : Args) (ms : List Module)
    (fetch : Except ReqException Response) (u : String) (c c' : Option String)
    (h : args.url = some u) :
    mainRun { args with custom_secrets := c } ms fetch =
      mainRun { args with custom_secrets := c' } ms fetch := by
  obtain ⟨au, nh, cs, prod⟩ := args
  simp only at h
  subst h
  rfl

/-- C1: `check_all_modules` returns at most one result per invocation: the
modules are iterated in registration order with first-match-wins semantics
(a prefix of non-matching modules is skipped, the first matching module's
result is returned and later modules are not consulted), and when no module
matches the CLI prints "No secrets found :(". -/
theorem check_all_modules_first_match_wins :
    (∀ (ms : List Module) (vals dict : List String),
      (run_modules ms vals dict).toList.length ≤ 1) ∧
    (∀ (ms₁ : List Module) (m : Module) (ms₂ : List Module) (vals : List String)
        (r : DetectionResult),
      (∀ m' ∈ ms₁, m'.check vals default_secrets = none) →
      m.check vals default_secrets = some r →
      check_all_modules (ms₁ ++ m :: ms₂) vals none = Except.ok (some r)) ∧
    (∀ (args : Args) (ms : List Module) (fetch : Except ReqException Response),
      args.url = none → args.product ≠ [] →
      check_all_modules ms args.product args.custom_secrets = Except.ok none →
      ∃ rest, mainRun args ms fetch = Except.ok ([banner, noSecretsMsg] ++ rest)) := by
  refine ⟨?_, ?_, ?_⟩
  · intro ms vals dict
    cases run_modules ms vals dict <;> simp
  · intro ms₁ m ms₂ vals r h₁ h₂
    simp [check_all_modules, run_modules_first_match ms₁ m ms₂ vals default_secrets r h₁ h₂]
  · intro args ms fetch hu hp hc
    rw [mainRun_product_none args ms fetch hu hp hc]
    cases hnh : args.no_hashcat
    · rcases hx : hashcat_all_modules ms (args.product.headD "") with _ | ⟨a, l⟩
      · exact ⟨[], by simp [hx]⟩
      · exact ⟨printHashcatLines (a :: l), by simp [hx]⟩
    · exact ⟨[], by simp⟩

/-- Witness for C1: with a non-matching module registered first, the second
module's result is the one returned. -/
theorem check_all_modules_first_match_wins_witness :
    check_all_modules ([mMiss] ++ mHit :: []) ["x"] none = Except.ok (some rIdent) :=
  check_all_modules_first_match_wins.2.1 [mMiss] mHit [] ["x"] rIdent
    (by intro m' hm'; rw [List.mem_singleton] at hm'; subst hm'; rfl) rfl

/-- C2 (amended): a fetch failure that `requests` raises as `ConnectionError`
or `ConnectTimeout` is caught: `main` prints the connection-error message and
returns without calling `carve_all_modules`; any other exception raised by the
fetch propagates out of `main` uncaught; in every failure case no carve result
is produced or printed. -/
theorem fetch_failure_handling (args : Args) (ms : List Module) (u : String)
    (e : ReqException) (hu : args.url = some u) (hp : args.product = []) :
    (caught e = true →
      mainRun args ms (Except.error e) =
        Except.ok [banner, "Error connecting to URL: [" ++ u ++ "]"]) ∧
    (caught e = false →
      mainRun args ms (Except.error e) = Except.error (.req e)) ∧
    (∀ out, mainRun args ms (Except.error e) = Except.ok out →
      out = [banner, "Error connecting to URL: [" ++ u ++ "]"]) := by
  obtain ⟨au, nh, cs, prod⟩ := args
  simp only at hu hp
  subst hu; subst hp
  refine ⟨?_, ?_, ?_⟩
  · intro hce; simp [mainRun, hce]
  · intro hce; simp [mainRun, hce]
  · intro out h
    cases hce : caught e <;> simp [mainRun, hce] at h
    exact h.symm

/-- Witness for C2 (amended): a `ConnectionError` is caught and reported. -/
theorem fetch_failure_handling_witness :
    mainRun argsUrlOnly [] (Except.error ReqException.connectionError) =
      Except.ok [banner, "Error connecting to URL: [" ++ "http://example.com" ++ "]"] :=
  (fetch_failure_handling argsUrlOnly [] "http://example.com"
    ReqException.connectionError rfl rfl).1 rfl

/-- Counterexample to C2 as stated: a `ChunkedEncodingError` raised by the
fetch (a network-layer failure `requests` does not classify under
`ConnectionError`) is not caught by the handler, so `main` does not print an
error message and does not return — the exception propagates. -/
theorem fetch_failure_counterexample :
    caught ReqException.chunkedEncodingError = false ∧
    mainRun argsUrlOnly [] (Except.error ReqException.chunkedEncodingError) =
      Except.error (CliError.req ReqException.chunkedEncodingError) :=
  ⟨rfl, rfl⟩

/-- C5: `carve_all_modules` returns a sequence (by type, never `none`); when
it is empty the CLI prints "No secrets found :(" and no report, and when it is
non-empty the CLI prints one report per result instead. -/
theorem carve_empty_prints_no_secrets (args : Args) (ms : List Module)
    (res : Response) (u : String) (hu : args.url = some u)
    (hp : args.product = []) :
    (carve_all_modules ms res = [] →
      mainRun args ms (Except.ok res) = Except.ok [banner, noSecretsMsg]) ∧
    (carve_all_modules ms res ≠ [] →
      mainRun args ms (Except.ok res) =
        Except.ok (banner ::
          ((carve_all_modules ms res).map (processCarveResult args ms)).flatten)) := by
  obtain ⟨au, nh, cs, prod⟩ := args
  simp only at hu hp
  subst hu; subst hp
  constructor
  · intro hc; simp [mainRun, hc]
  · intro hc
    simp [mainRun, List.isEmpty_iff, hc]

/-- Witness for C5: a response carrying nothing yields the empty sequence and
the CLI prints "No secrets found :(". -/
theorem carve_empty_prints_no_secrets_witness :
    mainRun argsUrlOnly [] (Except.ok emptyResponse) =
      Except.ok [banner, noSecretsMsg] :=
  (carve_empty_prints_no_secrets argsUrlOnly [] emptyResponse "http://example.com"
    rfl rfl).1 rfl

/-- C6: the hashcat advisor is a pure total function; when no registered
module's product descriptor matches the identifier it returns the empty
sequence, and the CLI prints hashcat suggestions only when the returned
sequence is non-empty. -/
theorem hashcat_advisor_empty_on_no_match :
    (∀ (ms : List Module) (p : String),
      (∀ m ∈ ms, m.hashcat = none ∨ ¬ strLower m.description.product = strLower p) →
      hashcat_all_modules ms p = []) ∧
    (∀ (args : Args) (ms : List Module) (fetch : Except ReqException Response),
      args.url = none → args.product ≠ [] →
      check_all_modules ms args.product args.custom_secrets = Except.ok none →
      args.no_hashcat = false →
      (hashcat_all_modules ms (args.product.headD "") = [] →
        mainRun args ms fetch = Except.ok [banner, noSecretsMsg]) ∧
      (hashcat_all_modules ms (args.product.headD "") ≠ [] →
        mainRun args ms fetch = Except.ok ([banner, noSecretsMsg] ++
          printHashcatLines (hashcat_all_modules ms (args.product.headD ""))))) := by
  constructor
  · intro ms p h
    refine List.filterMap_eq_nil_iff.mpr ?_
    intro m hm
    rcases h m hm with h1 | h2
    · simp [h1]
    · rcases hmh : m.hashcat with _ | dc
      · simp
      · simp [hmh, h2]
  · intro args ms fetch hu hp hc hnh
    rw [mainRun_product_none args ms fetch hu hp hc, hnh]
    constructor
    · intro he
      rw [he]
      simp
    · intro he
      rcases hx : hashcat_all_modules ms (args.product.headD "") with _ | ⟨a, l⟩
      · exact absurd hx he
      · simp

/-- Witness for C6: a registry whose only module carries no hashcat template
yields the empty sequence for any product identifier. -/
theorem hashcat_advisor_empty_on_no_match_witness :
    hashcat_all_modules [mMiss] "ASP.NET Viewstate" = [] :=
  hashcat_advisor_empty_on_no_match.1 [mMiss] "ASP.NET Viewstate"
    (by intro m hm; rw [List.mem_singleton] at hm; subst hm; exact Or.inl rfl)

/-- C7: malformed token data is non-fatal: the engine's check path returns
`Except.ok` for every candidate set when no custom resource is given (no
exception escapes because of a token), and the representative detector maps a
wrong segment count or a malformed base64 segment to `none` (`Unmatched`). -/
theorem malformed_token_nonfatal :
    (∀ (ms : List Module) (vals : List String),
      check_all_modules ms vals none = Except.ok (run_modules ms vals default_secrets)) ∧
    (∀ (dict : List String) (t : String),
      (splitOnChar '.' t).length ≠ 3 → sessionCookieCheck [t] dict = none) ∧
    (∀ (dict : List String) (t hd payload sig : String),
      splitOnChar '.' t = [hd, payload, sig] → isB64url hd = false →
      sessionCookieCheck [t] dict = none) := by
  refine ⟨fun ms vals => rfl, ?_, ?_⟩
  · intro dict t ht
    simp only [sessionCookieCheck]
    split
    · next hd payload sig heq => exact absurd (by rw [heq]; rfl) ht
    · rfl
  · intro dict t hd payload sig hsp hb
    simp only [sessionCookieCheck]
    rw [hsp]
    simp [hb]

/-- Witness for C7: a one-segment token and a token with a non-base64 header
segment are both `Unmatched`, not errors. -/
theorem malformed_token_nonfatal_witness :
    sessionCookieCheck ["not-a-jwt"] default_secrets = none ∧
    sessionCookieCheck ["!!.payload.sig"] default_secrets = none :=
  ⟨malformed_token_nonfatal.2.1 default_secrets "not-a-jwt" (by decide),
   malformed_token_nonfatal.2.2 default_secrets "!!.payload.sig" "!!" "payload" "sig"
     (by decide) (by decide)⟩

/-- C9: every detection result is exactly one of the two variants
(`SecretFound` or `ProductIdentified`), and the CLI's `type`-field test sends
each result to exactly the report branch of its variant. -/
theorem detection_result_two_variants :
    ∀ r : DetectionResult,
      r.isSecretFound = !r.isProductIdentified ∧
      (classifyResult r = ReportKind.secret ↔ r.isSecretFound = true) ∧
      (classifyResult r = ReportKind.identify ↔ r.isProductIdentified = true) := by
  intro r
  cases r <;>
    refine ⟨rfl, ?_, ?_⟩ <;>
      simp [classifyResult, DetectionResult.rtype, DetectionResult.isSecretFound,
        DetectionResult.isProductIdentified]

/-- Witness for C10: a URL-mode run produces the same output with and without
a custom-secrets file. -/
theorem url_mode_ignores_custom_secrets_witness :
    mainRun ⟨some "http://example.com", false, some "words.txt", []⟩ []
        (.ok emptyResponse) =
      mainRun ⟨some "http://example.com", false, none, []⟩ [] (.ok emptyResponse) :=
  url_mode_ignores_custom_secrets ⟨some "http://example.com", false, none, []⟩ []
    (.ok emptyResponse) "http://example.com" (some "words.txt") none rfl

end Badsecrets
